import Mathlib

/-!
Shallow embedding of the calendar-scheduling utility (files `manual.py` and
`crew.py`).  Time instants are modelled as microseconds since the Unix epoch
(`Nat`), matching Python `datetime`'s microsecond resolution; `strftime` with
the format `%Y-%m-%dT%H:%M:%S` truncates to whole seconds and is modelled by
`fmtTimestamp` on seconds since the epoch.  External effects (the credential
cache file, the OAuth refresh exchange, the interactive consent flow, the
provider's insert call, the clock) are supplied through explicit environment
records, and the functions return the observable outcome together with a
trace of the effects they performed.
-/

set_option autoImplicit false

namespace Scheduler

/-- Zero-pad a number to two digits, as `strftime` does for `%m %d %H %M %S`. -/
def pad2 (n : Nat) : String :=
  if n < 10 then "0" ++ toString n else toString n

/-- Zero-pad a number to four digits, as `strftime` does for `%Y`. -/
def pad4 (n : Nat) : String :=
  if n < 10 then "000" ++ toString n
  else if n < 100 then "00" ++ toString n
  else if n < 1000 then "0" ++ toString n
  else toString n

/-- Convert a count of days since 1970-01-01 to a civil `(year, month, day)`
triple (proleptic Gregorian calendar, the algorithm used by `datetime`). -/
def civilFromDays (days : Nat) : Nat × Nat × Nat :=
  let z := days + 719468
  let era := z / 146097
  let doe := z % 146097
  let yoe := (doe - doe / 1460 + doe / 36524 - doe / 146096) / 365
  let y := yoe + era * 400
  let doy := doe - (365 * yoe + yoe / 4 - yoe / 100)
  let mp := (5 * doy + 2) / 153
  let d := doy - (153 * mp + 2) / 5 + 1
  let m := if mp < 10 then mp + 3 else mp - 9
  (if m ≤ 2 then y + 1 else y, m, d)

/-- `strftime('%Y-%m-%dT%H:%M:%S')` on a timestamp given in whole seconds
since the Unix epoch. -/
def fmtTimestamp (secs : Nat) : String :=
  let days := secs / 86400
  let sod := secs % 86400
  let c := civilFromDays days
  pad4 c.1 ++ "-" ++ pad2 c.2.1 ++ "-" ++ pad2 c.2.2 ++ "T" ++
    pad2 (sod / 3600) ++ ":" ++ pad2 (sod % 3600 / 60) ++ ":" ++ pad2 (sod % 60)

/-- Seconds-since-epoch value denoted by the start string of a slot computed
from a clock reading of `nowUs` microseconds: `now + 1 hour`, truncated to
whole seconds by `strftime`. -/
def slotStartSec (nowUs : Nat) : Nat :=
  (nowUs + 3600 * 1000000) / 1000000

/-- Seconds-since-epoch value denoted by the end string of a slot:
`start + duration_minutes minutes`, truncated to whole seconds. -/
def slotEndSec (nowUs : Nat) (duration_minutes : Nat) : Nat :=
  (nowUs + 3600 * 1000000 + duration_minutes * 60 * 1000000) / 1000000

/-- `manual.py` `find_slot`: reads the clock (`datetime.utcnow()`, supplied
here as `nowUs` microseconds since the epoch), adds one hour for the start,
`duration_minutes` minutes more for the end, and renders both with
`strftime('%Y-%m-%dT%H:%M:%S')`.  The `timezone` argument is unused.
Returns the `(start_iso, end_iso)` pair. -/
def find_slot (nowUs : Nat) (duration_minutes : Nat) (_timezone : String) :
    String × String :=
  let start := nowUs + 3600 * 1000000
  let endUs := start + duration_minutes * 60 * 1000000
  (fmtTimestamp (start / 1000000), fmtTimestamp (endUs / 1000000))

/-- The dictionary returned by `crew.py`'s `find_slot`. -/
structure SlotDict where
  start_time : String
  end_time : String
  timezone : String
deriving Repr, DecidableEq

/-- `crew.py` `find_slot`: identical arithmetic, but the clock read is
`datetime.now()` (the local wall clock, supplied here as `nowLocalUs`
microseconds), and the result is a dictionary that echoes the `timezone`
argument back. -/
def crew_find_slot (nowLocalUs : Nat) (duration_minutes : Nat)
    (timezone : String) : SlotDict :=
  let start := nowLocalUs + 3600 * 1000000
  let endUs := start + duration_minutes * 60 * 1000000
  { start_time := fmtTimestamp (start / 1000000)
    end_time := fmtTimestamp (endUs / 1000000)
    timezone := timezone }

/-- A `google.oauth2.credentials.Credentials` object: bearer token, refresh
token, and expiry instant (seconds since the epoch), each possibly absent. -/
structure Credential where
  token : Option String
  refresh_token : Option String
  expiry : Option Nat
deriving Repr, DecidableEq

/-- `Credentials.expired`: true when an expiry is set and the current instant
has reached it. -/
def Credential.expired (c : Credential) (now : Nat) : Bool :=
  match c.expiry with
  | none => false
  | some e => decide (e ≤ now)

/-- `Credentials.valid`: a token is present and the credential is not
expired. -/
def Credential.valid (c : Credential) (now : Nat) : Bool :=
  c.token.isSome && !(c.expired now)

/-- The fields serialized by `Credentials.to_json` (the serialization is
injective on these fields, so cache-file contents are compared at this
level). -/
structure CredJson where
  token : Option String
  refresh_token : Option String
  expiry : Option Nat
deriving Repr, DecidableEq

/-- `Credentials.to_json`. -/
def Credential.to_json (c : Credential) : CredJson :=
  ⟨c.token, c.refresh_token, c.expiry⟩

/-- Content of the credential cache file: either a well-formed serialized
credential or bytes `from_authorized_user_file` rejects. -/
inductive FileData where
  | json (c : CredJson)
  | garbage (s : String)
deriving Repr, DecidableEq

/-- `Credentials.from_authorized_user_file` applied to the file's content:
parses a serialized credential, raises on anything else. -/
def parseAuthorizedUserFile : FileData → Except String Credential
  | .json c => .ok ⟨c.token, c.refresh_token, c.expiry⟩
  | .garbage s => .error s

/-- Environment of a credential-acquisition run: the cache file's state, the
outcomes the OAuth refresh exchange and the interactive consent flow would
produce if invoked, and the current instant (seconds since the epoch). -/
structure AuthEnv where
  cache_file : Option FileData
  refresh_result : Except String (String × Nat)
  flow_result : Except String Credential
  now : Nat
deriving Repr

/-- Effects performed during credential acquisition. -/
structure AuthTrace where
  refresh_invoked : Bool
  interactive_invoked : Bool
  file_written : Option CredJson
deriving Repr, DecidableEq

/-- `manual.py` `get_calendar_service`: load the cached credential if the
file exists; if there is no valid credential, refresh when expired with a
refresh token, otherwise run the interactive flow; persist the new
credential; return the service (modelled by the credential it carries).
Failures are not caught here: the result is `Except`. -/
def get_calendar_service (env : AuthEnv) :
    Except String (Credential × AuthTrace) :=
  match env.cache_file with
  | none =>
      match env.flow_result with
      | .error e => .error e
      | .ok c => .ok (c, ⟨false, true, some c.to_json⟩)
  | some fd =>
      match parseAuthorizedUserFile fd with
      | .error e => .error e
      | .ok creds =>
          if creds.valid env.now then
            .ok (creds, ⟨false, false, none⟩)
          else if creds.expired env.now && creds.refresh_token.isSome then
            match env.refresh_result with
            | .error e => .error e
            | .ok (t, exp) =>
                let creds' : Credential :=
                  { creds with token := some t, expiry := some exp }
                .ok (creds', ⟨true, false, some creds'.to_json⟩)
          else
            match env.flow_result with
            | .error e => .error e
            | .ok c => .ok (c, ⟨false, true, some c.to_json⟩)

/-- The event body built by `create_calendar_event` (both variants build the
same payload). -/
structure EventBody where
  summary : String
  description : Option String
  start_dateTime : String
  start_timeZone : String
  end_dateTime : String
  end_timeZone : String
  attendee_emails : List String
  requestId : String
  conferenceSolutionType : String
  remindersUseDefault : Bool
  guestsCanModify : Bool
  guestsCanInviteOthers : Bool
  guestsCanSeeOtherGuests : Bool
deriving Repr, DecidableEq

/-- Build the provider event payload; `ts_reading` is the rendering of
`datetime.now().timestamp()` at build time, from which the conferencing
deduplication identifier `event_{...}` is derived. -/
def buildEvent (summary : String) (description : Option String)
    (start_time end_time timezone : String) (attendees : List String)
    (ts_reading : String) : EventBody :=
  { summary := summary
    description := description
    start_dateTime := start_time
    start_timeZone := timezone
    end_dateTime := end_time
    end_timeZone := timezone
    attendee_emails := attendees
    requestId := "event_" ++ ts_reading
    conferenceSolutionType := "hangoutsMeet"
    remindersUseDefault := true
    guestsCanModify := true
    guestsCanInviteOthers := true
    guestsCanSeeOtherGuests := true }

/-- The event resource the provider returns on a successful insert; each
field may be omitted. -/
structure EventResource where
  htmlLink : Option String
  hangoutLink : Option String
  id : Option String
deriving Repr, DecidableEq

/-- The dictionary `create_calendar_event` returns: `status: success` with
the three links/ids (each possibly `None`), or `status: error` with the
stringified exception. -/
inductive EventResult where
  | success (event_link meet_link event_id : Option String)
  | error (error_message : String)
deriving Repr, DecidableEq

/-- Environment of one `create_calendar_event` call: the credential
environment, the clock reading used for the deduplication identifier, and
the outcome the provider's insert call would produce if reached. -/
structure CreateEnv where
  auth : AuthEnv
  ts_reading : String
  insert_result : Except String EventResource
deriving Repr

/-- Observable outcome of one `create_calendar_event` call: the returned
dictionary, the credential-acquisition trace (absent when acquisition raised
before completing), and the event body submitted (absent when the insert was
never reached). -/
structure CreateOutcome where
  result : EventResult
  auth_trace : Option AuthTrace
  event_body : Option EventBody
deriving Repr, DecidableEq

/-- `manual.py` `create_calendar_event`: the whole body — including the
`get_calendar_service` call — is inside `try: ... except Exception`, so any
failure (credential acquisition included) is converted to the error
dictionary and nothing propagates. -/
def create_calendar_event (summary : String) (start_time end_time : String)
    (attendees : List String) (description : Option String)
    (timezone : String) (env : CreateEnv) : CreateOutcome :=
  match get_calendar_service env.auth with
  | .error e => ⟨.error e, none, none⟩
  | .ok (_creds, tr) =>
      let event := buildEvent summary description start_time end_time
        timezone attendees env.ts_reading
      match env.insert_result with
      | .error e => ⟨.error e, some tr, some event⟩
      | .ok r => ⟨.success r.htmlLink r.hangoutLink r.id, some tr, some event⟩

/-- `crew.py` `create_calendar_event`: the same credential logic inlined
(rather than in a helper), again entirely inside `try: ... except
Exception`. -/
def crew_create_calendar_event (summary : String)
    (start_time end_time : String) (attendees : List String)
    (description : Option String) (timezone : String) (env : CreateEnv) :
    CreateOutcome :=
  match
    (match env.auth.cache_file with
     | none =>
         match env.auth.flow_result with
         | .error e => .error e
         | .ok c => .ok (c, (⟨false, true, some c.to_json⟩ : AuthTrace))
     | some fd =>
         match parseAuthorizedUserFile fd with
         | .error e => .error e
         | .ok creds =>
             if creds.valid env.auth.now then
               .ok (creds, (⟨false, false, none⟩ : AuthTrace))
             else if creds.expired env.auth.now &&
                 creds.refresh_token.isSome then
               match env.auth.refresh_result with
               | .error e => .error e
               | .ok (t, exp) =>
                   let creds' : Credential :=
                     { creds with token := some t, expiry := some exp }
                   .ok (creds', (⟨true, false, some creds'.to_json⟩ : AuthTrace))
             else
               match env.auth.flow_result with
               | .error e => .error e
               | .ok c => .ok (c, (⟨false, true, some c.to_json⟩ : AuthTrace))
     : Except String (Credential × AuthTrace))
  with
  | .error e => ⟨.error e, none, none⟩
  | .ok (_creds, tr) =>
      let event := buildEvent summary description start_time end_time
        timezone attendees env.ts_reading
      match env.insert_result with
      | .error e => ⟨.error e, some tr, some event⟩
      | .ok r => ⟨.success r.htmlLink r.hangoutLink r.id, some tr, some event⟩

/-! ### Helper lemmas -/

/-- The two variants of `create_calendar_event` are the same function of the
environment: `crew.py` inlines exactly the credential logic that `manual.py`
keeps in `get_calendar_service`. -/
theorem crew_create_eq_manual (s st en : String) (att : List String)
    (d : Option String) (tz : String) (env : CreateEnv) :
    crew_create_calendar_event s st en att d tz env =
      create_calendar_event s st en att d tz env := rfl

/-- Appending on the left is cancellative for strings. -/
theorem string_append_cancel_left {s t u : String} (h : s ++ t = s ++ u) :
    t = u := by
  have hd := congrArg String.data h
  simp only [String.data_append] at hd
  exact String.ext (List.append_cancel_left hd)

/-- Whenever a `create_calendar_event` call gets as far as building the event
body, that body's conferencing deduplication identifier is `event_` followed
by the call's `datetime.now().timestamp()` reading. -/
theorem event_body_requestId (s st en : String) (att : List String)
    (d : Option String) (tz : String) (env : CreateEnv) (b : EventBody)
    (h : (create_calendar_event s st en att d tz env).event_body = some b) :
    b.requestId = "event_" ++ env.ts_reading := by
  unfold create_calendar_event at h
  split at h
  · simp at h
  · split at h
    · simp only [Option.some.injEq] at h
      subst h
      rfl
    · simp only [Option.some.injEq] at h
      subst h
      rfl

/-! ### Claims about the Slot Proposer -/

/-- C2: for every duration and timezone label, `find_slot` returns the slot
whose start denotes the clock reading truncated to whole seconds plus one
hour and whose end denotes start plus `duration_minutes` minutes, and the
start instant is strictly later than any instant `t₀` captured at or before
the clock reading. -/
theorem find_slot_start_end (nowUs d t₀ : Nat) (tz : String)
    (h₀ : t₀ ≤ nowUs) :
    find_slot nowUs d tz =
      (fmtTimestamp (nowUs / 1000000 + 3600),
        fmtTimestamp (nowUs / 1000000 + 3600 + d * 60)) ∧
    t₀ < (nowUs / 1000000 + 3600) * 1000000 := by
  constructor
  · have h1 : (nowUs + 3600 * 1000000) / 1000000 = nowUs / 1000000 + 3600 := by
      omega
    have h2 : (nowUs + 3600 * 1000000 + d * 60 * 1000000) / 1000000 =
        nowUs / 1000000 + 3600 + d * 60 := by
      omega
    simp [find_slot, h1, h2]
  · omega

/-- Witness for C2 at a concrete clock reading. -/
theorem find_slot_start_end_witness :
    1700000000123456 ≤ 1700000000123456 ∧
    (find_slot 1700000000123456 60 "UTC" =
      (fmtTimestamp (1700000000123456 / 1000000 + 3600),
        fmtTimestamp (1700000000123456 / 1000000 + 3600 + 60 * 60)) ∧
      1700000000123456 < (1700000000123456 / 1000000 + 3600) * 1000000) :=
  ⟨by decide, find_slot_start_end 1700000000123456 60 1700000000123456 "UTC"
    (by decide)⟩

/-- C7 counterexample: at the boundary value `duration_minutes = 0`, which
the claim explicitly includes, `find_slot` returns a slot whose end equals
its start, so the invariant `end > start` fails. -/
theorem find_slot_zero_duration_cex :
    (find_slot 0 0 "UTC").2 = (find_slot 0 0 "UTC").1 ∧
    ¬ slotStartSec 0 < slotEndSec 0 0 := by
  exact ⟨rfl, by decide⟩

/-- C7 (amended): every slot returned by `find_slot` satisfies `end > start`
for every `duration_minutes > 0`; at `duration_minutes = 0` the end equals
the start instead. -/
theorem find_slot_end_after_start (nowUs d : Nat) (tz : String)
    (hd : 0 < d) :
    find_slot nowUs d tz =
      (fmtTimestamp (slotStartSec nowUs), fmtTimestamp (slotEndSec nowUs d)) ∧
    slotStartSec nowUs < slotEndSec nowUs d := by
  refine ⟨rfl, ?_⟩
  unfold slotStartSec slotEndSec
  omega

/-- Witness for the amended C7 at a concrete positive duration. -/
theorem find_slot_end_after_start_witness :
    0 < 60 ∧
    (find_slot 0 60 "UTC" =
      (fmtTimestamp (slotStartSec 0), fmtTimestamp (slotEndSec 0 60)) ∧
      slotStartSec 0 < slotEndSec 0 60) :=
  ⟨by decide, find_slot_end_after_start 0 60 "UTC" (by decide)⟩

/-- C8 counterexample: evaluated at the same instant (epoch) on a host whose
local clock is one hour ahead of UTC, `manual.py`'s `find_slot` (which reads
`datetime.utcnow()`) and `crew.py`'s `find_slot` (which reads the local
`datetime.now()`, here `utc + 3600s`) return different start strings. -/
theorem find_slot_variants_cex :
    (find_slot 0 60 "UTC").1 ≠
      (crew_find_slot (0 + 3600 * 1000000) 60 "UTC").start_time := by
  decide

/-- C8 (amended): the two variants compute identical start and end strings
whenever their clock readings coincide (that is, when the host's local clock
agrees with UTC); they differ only in the clock each one reads. -/
theorem find_slot_variants_agree (nowUs d : Nat) (tz : String) :
    (crew_find_slot nowUs d tz).start_time = (find_slot nowUs d tz).1 ∧
    (crew_find_slot nowUs d tz).end_time = (find_slot nowUs d tz).2 :=
  ⟨rfl, rfl⟩

/-- C10: the timezone label influences neither start nor end: `manual.py`'s
`find_slot` returns an identical pair under any two labels, and `crew.py`'s
returns identical start and end strings, merely echoing the label back in
the `timezone` field. -/
theorem find_slot_timezone_noninterference (nowUs d : Nat)
    (tz tz' : String) :
    find_slot nowUs d tz = find_slot nowUs d tz' ∧
    (crew_find_slot nowUs d tz).start_time =
      (crew_find_slot nowUs d tz').start_time ∧
    (crew_find_slot nowUs d tz).end_time =
      (crew_find_slot nowUs d tz').end_time ∧
    (crew_find_slot nowUs d tz).timezone = tz :=
  ⟨rfl, rfl, rfl, rfl⟩

/-! ### Concrete environments used as witnesses and counterexamples -/

/-- A run whose cache file holds an expired credential with a refresh token
and whose refresh exchange fails. -/
def authFailEnv : CreateEnv :=
  { auth := { cache_file := some (.json ⟨some "tok", some "rt", some 5⟩)
              refresh_result := .error "refresh failed"
              flow_result := .ok ⟨some "x", none, none⟩
              now := 10 }
    ts_reading := "1700000000.0"
    insert_result := .ok ⟨some "L", some "M", some "X"⟩ }

/-- A run with no cache file whose interactive consent flow fails. -/
def flowFailEnv : CreateEnv :=
  { auth := { cache_file := none
              refresh_result := .error "unused"
              flow_result := .error "consent failed"
              now := 0 }
    ts_reading := "1700000000.0"
    insert_result := .error "unused" }

/-- A run whose cache file holds a valid (unexpired) credential and whose
insert call succeeds. -/
def validCredEnv : CreateEnv :=
  { auth := { cache_file := some (.json ⟨some "tok", some "rt", some 9999⟩)
              refresh_result := .error "unused"
              flow_result := .error "unused"
              now := 100 }
    ts_reading := "1700000000.123456"
    insert_result := .ok ⟨some "L", some "M", some "X"⟩ }

/-- The same run at a later clock tick. -/
def validPlusTickEnv : CreateEnv :=
  { validCredEnv with ts_reading := "1700000000.654321" }

/-- The same run with a failing insert call. -/
def insertFailEnv : CreateEnv :=
  { validCredEnv with insert_result := .error "boom" }

/-- A run whose cache file holds an expired credential with a refresh token
and whose refresh exchange succeeds. -/
def expiredRefreshEnv : CreateEnv :=
  { auth := { cache_file := some (.json ⟨some "old", some "rt", some 5⟩)
              refresh_result := .ok ("new", 99999)
              flow_result := .error "unused"
              now := 10 }
    ts_reading := "1700000000.0"
    insert_result := .ok ⟨some "L", some "M", some "X"⟩ }

/-! ### Claims about the Event Publisher -/

/-- C1 counterexample: on a run whose refresh exchange fails, credential
acquisition raises, yet both variants of `create_calendar_event` catch the
failure (their whole body sits inside `try/except Exception`) and return a
`Failure` EventResult — no exception propagates to the caller. -/
theorem auth_failure_not_propagated_cex :
    get_calendar_service authFailEnv.auth = .error "refresh failed" ∧
    (create_calendar_event "Mtg" "s" "e" [] none "UTC" authFailEnv).result =
      .error "refresh failed" ∧
    (crew_create_calendar_event "Mtg" "s" "e" [] none "UTC"
        authFailEnv).result = .error "refresh failed" :=
  ⟨rfl, rfl, rfl⟩

/-- C1 (amended): every failure raised during credential acquisition (cache
load, refresh, or interactive consent) IS caught by `create_calendar_event`
in both variants: the call returns a `Failure` result carrying the failure's
text, no event body is ever built, and no exception escapes. -/
theorem auth_failure_caught (s st en : String) (att : List String)
    (d : Option String) (tz : String) (env : CreateEnv) (e : String)
    (h : get_calendar_service env.auth = .error e) :
    (create_calendar_event s st en att d tz env).result = .error e ∧
    (create_calendar_event s st en att d tz env).event_body = none ∧
    (crew_create_calendar_event s st en att d tz env).result = .error e := by
  refine ⟨?_, ?_, ?_⟩ <;> simp [create_calendar_event, crew_create_eq_manual, h]

/-- Witness for the amended C1: a failing interactive consent flow is caught
and surfaced as a `Failure` result. -/
theorem auth_failure_caught_witness :
    get_calendar_service flowFailEnv.auth = .error "consent failed" ∧
    ((create_calendar_event "Mtg" "s" "e" [] none "UTC" flowFailEnv).result =
        .error "consent failed" ∧
      (create_calendar_event "Mtg" "s" "e" [] none "UTC"
          flowFailEnv).event_body = none ∧
      (crew_create_calendar_event "Mtg" "s" "e" [] none "UTC"
          flowFailEnv).result = .error "consent failed") :=
  ⟨rfl, auth_failure_caught "Mtg" "s" "e" [] none "UTC" flowFailEnv
    "consent failed" rfl⟩

/-- C3: when credential acquisition succeeds and the provider's insert call
returns an event resource, both variants return `Success` populated exactly
from the resource's `htmlLink`, `hangoutLink` and `id` fields; a field the
provider omits is carried through as `none`, not as an error. -/
theorem insert_success_result (s st en : String) (att : List String)
    (d : Option String) (tz : String) (env : CreateEnv) (c : Credential)
    (tr : AuthTrace) (r : EventResource)
    (hs : get_calendar_service env.auth = .ok (c, tr))
    (hi : env.insert_result = .ok r) :
    (create_calendar_event s st en att d tz env).result =
      .success r.htmlLink r.hangoutLink r.id ∧
    (crew_create_calendar_event s st en att d tz env).result =
      .success r.htmlLink r.hangoutLink r.id := by
  constructor <;> simp [create_calendar_event, crew_create_eq_manual, hs, hi]

/-- Witness for C3: the provider returns `{htmlLink: L, hangoutLink: M,
id: X}` and both variants return `Success{L, M, X}` exactly. -/
theorem insert_success_result_witness :
    get_calendar_service validCredEnv.auth =
      .ok (⟨some "tok", some "rt", some 9999⟩, ⟨false, false, none⟩) ∧
    validCredEnv.insert_result = .ok ⟨some "L", some "M", some "X"⟩ ∧
    ((create_calendar_event "Mtg" "s" "e" [] none "UTC" validCredEnv).result =
        .success (some "L") (some "M") (some "X") ∧
      (crew_create_calendar_event "Mtg" "s" "e" [] none "UTC"
          validCredEnv).result = .success (some "L") (some "M") (some "X")) :=
  ⟨rfl, rfl, insert_success_result "Mtg" "s" "e" [] none "UTC" validCredEnv
    _ _ _ rfl rfl⟩

/-- C4: when credential acquisition succeeds and the provider's insert call
raises, both variants catch the exception and return `Failure` carrying its
stringified description; no exception escapes and the insert is consulted
exactly once (no retry). -/
theorem insert_failure_result (s st en : String) (att : List String)
    (d : Option String) (tz : String) (env : CreateEnv) (c : Credential)
    (tr : AuthTrace) (m : String)
    (hs : get_calendar_service env.auth = .ok (c, tr))
    (hi : env.insert_result = .error m) :
    (create_calendar_event s st en att d tz env).result = .error m ∧
    (crew_create_calendar_event s st en att d tz env).result = .error m := by
  constructor <;> simp [create_calendar_event, crew_create_eq_manual, hs, hi]

/-- Witness for C4: an insert raising `boom` yields `Failure{boom}` from
both variants. -/
theorem insert_failure_result_witness :
    get_calendar_service insertFailEnv.auth =
      .ok (⟨some "tok", some "rt", some 9999⟩, ⟨false, false, none⟩) ∧
    insertFailEnv.insert_result = .error "boom" ∧
    ((create_calendar_event "Mtg" "s" "e" [] none "UTC" insertFailEnv).result =
        .error "boom" ∧
      (crew_create_calendar_event "Mtg" "s" "e" [] none "UTC"
          insertFailEnv).result = .error "boom") :=
  ⟨rfl, rfl, insert_failure_result "Mtg" "s" "e" [] none "UTC" insertFailEnv
    _ _ _ rfl rfl⟩

/-- C5: when the cache file exists and holds a valid (unexpired, well-formed)
credential, credential acquisition returns it directly — no refresh, no
interactive flow, no file write — and the crew variant's run likewise never
invokes the interactive flow. -/
theorem valid_cred_no_interactive (env : AuthEnv) (j : CredJson)
    (s st en : String) (att : List String) (d : Option String) (tz : String)
    (ts : String) (ir : Except String EventResource)
    (hf : env.cache_file = some (.json j))
    (hv : Credential.valid ⟨j.token, j.refresh_token, j.expiry⟩ env.now =
      true) :
    get_calendar_service env =
      .ok (⟨j.token, j.refresh_token, j.expiry⟩, ⟨false, false, none⟩) ∧
    (crew_create_calendar_event s st en att d tz ⟨env, ts, ir⟩).auth_trace =
      some ⟨false, false, none⟩ := by
  have h1 : get_calendar_service env =
      .ok (⟨j.token, j.refresh_token, j.expiry⟩, ⟨false, false, none⟩) := by
    simp [get_calendar_service, hf, parseAuthorizedUserFile, hv]
  refine ⟨h1, ?_⟩
  rw [crew_create_eq_manual]
  cases ir with
  | error m => simp [create_calendar_event, h1]
  | ok r => simp [create_calendar_event, h1]

/-- Witness for C5: a cached credential expiring at 9999 observed at instant
100 is served from the cache with no interactive flow. -/
theorem valid_cred_no_interactive_witness :
    validCredEnv.auth.cache_file =
      some (.json ⟨some "tok", some "rt", some 9999⟩) ∧
    Credential.valid ⟨some "tok", some "rt", some 9999⟩
      validCredEnv.auth.now = true ∧
    (get_calendar_service validCredEnv.auth =
        .ok (⟨some "tok", some "rt", some 9999⟩, ⟨false, false, none⟩) ∧
      (crew_create_calendar_event "Mtg" "s" "e" [] none "UTC"
          ⟨validCredEnv.auth, "1.0",
            validCredEnv.insert_result⟩).auth_trace =
        some ⟨false, false, none⟩) :=
  ⟨rfl, rfl, valid_cred_no_interactive validCredEnv.auth
    ⟨some "tok", some "rt", some 9999⟩ "Mtg" "s" "e" [] none "UTC" "1.0"
    validCredEnv.insert_result rfl rfl⟩

/-- C6: when the cache file holds an expired credential carrying a refresh
token and the refresh exchange succeeds (yielding an expiry still in the
future), credential acquisition refreshes, writes the refreshed credential
back to the cache file — content different from the original — and never
invokes the interactive flow (in the crew variant's run as well). -/
theorem expired_refresh_persists (env : AuthEnv) (j : CredJson) (t' : String)
    (e' : Nat) (s st en : String) (att : List String) (d : Option String)
    (tz : String) (ts : String) (ir : Except String EventResource)
    (hf : env.cache_file = some (.json j))
    (hx : Credential.expired ⟨j.token, j.refresh_token, j.expiry⟩ env.now =
      true)
    (hr : j.refresh_token.isSome = true)
    (hrr : env.refresh_result = .ok (t', e'))
    (hfresh : env.now < e') :
    get_calendar_service env =
      .ok (⟨some t', j.refresh_token, some e'⟩,
        ⟨true, false, some ⟨some t', j.refresh_token, some e'⟩⟩) ∧
    (⟨some t', j.refresh_token, some e'⟩ : CredJson) ≠ j ∧
    (crew_create_calendar_event s st en att d tz ⟨env, ts, ir⟩).auth_trace =
      some ⟨true, false, some ⟨some t', j.refresh_token, some e'⟩⟩ := by
  have hvalid : Credential.valid ⟨j.token, j.refresh_token, j.expiry⟩
      env.now = false := by
    simp [Credential.valid, hx]
  have h1 : get_calendar_service env =
      .ok (⟨some t', j.refresh_token, some e'⟩,
        ⟨true, false, some ⟨some t', j.refresh_token, some e'⟩⟩) := by
    simp [get_calendar_service, hf, parseAuthorizedUserFile, hvalid, hx, hr,
      hrr, Credential.to_json]
  have hne : (⟨some t', j.refresh_token, some e'⟩ : CredJson) ≠ j := by
    intro hcontra
    have he := congrArg CredJson.expiry hcontra
    cases hj : j.expiry with
    | none =>
        rw [hj] at he
        exact Option.noConfusion he
    | some ex =>
        rw [hj] at he
        have hex : e' = ex := Option.some.inj he
        simp [Credential.expired, hj] at hx
        omega
  refine ⟨h1, hne, ?_⟩
  rw [crew_create_eq_manual]
  cases ir with
  | error m => simp [create_calendar_event, h1]
  | ok r => simp [create_calendar_event, h1]

/-- Witness for C6: an expired credential (expiry 5, now 10) with a refresh
token is refreshed to (`new`, 99999); the cache file is rewritten with
different content and no interactive flow runs. -/
theorem expired_refresh_persists_witness :
    expiredRefreshEnv.auth.cache_file =
      some (.json ⟨some "old", some "rt", some 5⟩) ∧
    Credential.expired ⟨some "old", some "rt", some 5⟩
      expiredRefreshEnv.auth.now = true ∧
    (some "rt" : Option String).isSome = true ∧
    expiredRefreshEnv.auth.refresh_result = .ok ("new", 99999) ∧
    expiredRefreshEnv.auth.now < 99999 ∧
    (get_calendar_service expiredRefreshEnv.auth =
        .ok (⟨some "new", some "rt", some 99999⟩,
          ⟨true, false, some ⟨some "new", some "rt", some 99999⟩⟩) ∧
      (⟨some "new", some "rt", some 99999⟩ : CredJson) ≠
        ⟨some "old", some "rt", some 5⟩ ∧
      (crew_create_calendar_event "Mtg" "s" "e" [] none "UTC"
          ⟨expiredRefreshEnv.auth, "1.0",
            expiredRefreshEnv.insert_result⟩).auth_trace =
        some ⟨true, false, some ⟨some "new", some "rt", some 99999⟩⟩) :=
  ⟨rfl, rfl, rfl, rfl, by decide,
    expired_refresh_persists expiredRefreshEnv.auth
      ⟨some "old", some "rt", some 5⟩ "new" 99999 "Mtg" "s" "e" [] none
      "UTC" "1.0" expiredRefreshEnv.insert_result rfl rfl rfl rfl
      (by decide)⟩

/-- C9 counterexample: two consecutive successful calls whose
`datetime.now().timestamp()` readings fall within the same clock tick (equal
readings) build event bodies with the SAME conferencing deduplication
identifier — the identifiers are not distinct below the clock's
resolution. -/
theorem requestId_same_tick_cex :
    (create_calendar_event "A" "s1" "e1" [] none "UTC" validCredEnv).result =
      .success (some "L") (some "M") (some "X") ∧
    (create_calendar_event "B" "s2" "e2" [] none "UTC" validCredEnv).result =
      .success (some "L") (some "M") (some "X") ∧
    (create_calendar_event "A" "s1" "e1" [] none "UTC"
        validCredEnv).event_body.map EventBody.requestId =
      (create_calendar_event "B" "s2" "e2" [] none "UTC"
        validCredEnv).event_body.map EventBody.requestId :=
  ⟨rfl, rfl, rfl⟩

/-- C9 (amended): the conferencing deduplication identifiers of two calls
are distinct exactly when the two calls' timestamp readings differ; equal
readings (the same clock tick) give equal identifiers. -/
theorem requestId_distinct_of_reading_distinct (s₁ st₁ en₁ s₂ st₂ en₂ :
      String) (a₁ a₂ : List String) (d₁ d₂ : Option String)
    (tz₁ tz₂ : String) (env₁ env₂ : CreateEnv) (b₁ b₂ : EventBody)
    (h₁ : (create_calendar_event s₁ st₁ en₁ a₁ d₁ tz₁ env₁).event_body =
      some b₁)
    (h₂ : (create_calendar_event s₂ st₂ en₂ a₂ d₂ tz₂ env₂).event_body =
      some b₂)
    (hne : env₁.ts_reading ≠ env₂.ts_reading) :
    b₁.requestId ≠ b₂.requestId := by
  rw [event_body_requestId _ _ _ _ _ _ _ _ h₁,
    event_body_requestId _ _ _ _ _ _ _ _ h₂]
  intro hcontra
  exact hne (string_append_cancel_left hcontra)

/-- Witness for the amended C9: two calls one tick apart produce distinct
identifiers. -/
theorem requestId_distinct_witness :
    (create_calendar_event "A" "s1" "e1" [] none "UTC"
        validCredEnv).event_body =
      some (buildEvent "A" none "s1" "e1" "UTC" [] "1700000000.123456") ∧
    (create_calendar_event "B" "s2" "e2" [] none "UTC"
        validPlusTickEnv).event_body =
      some (buildEvent "B" none "s2" "e2" "UTC" [] "1700000000.654321") ∧
    validCredEnv.ts_reading ≠ validPlusTickEnv.ts_reading ∧
    (buildEvent "A" none "s1" "e1" "UTC" [] "1700000000.123456").requestId ≠
      (buildEvent "B" none "s2" "e2" "UTC" [] "1700000000.654321").requestId :=
  ⟨rfl, rfl, by decide,
    requestId_distinct_of_reading_distinct "A" "s1" "e1" "B" "s2" "e2" [] []
      none none "UTC" "UTC" validCredEnv validPlusTickEnv _ _ rfl rfl
      (by decide)⟩

end Scheduler
